import Mathlib

/-!
# UsdObject3d: the 3-D object facade over a USD prim

A shallow embedding of `lib/mayaUsd/ufe/UsdObject3d.cpp`.  The four overrides
(`sceneItem`, `boundingBox`, `visibility`, `setVisibility`) and the two file-local
helpers (`toVector3d`, `getVisibilityAttribute`) are translated function by function.
A C++ exception is an `Except` error that keeps the state reached when it was thrown;
a possibly-null smart pointer is an `Option`.

The collaborators the file calls into (the attribute interface, the tokens, the
bounding-box engine, the time lookup) are not part of the file; they are modelled in
the first section and every such definition says so in its doc comment.
-/

namespace MayaUsd
namespace ufe

/-! ## Collaborators -/

/-- Modelled from the spec: `Ufe::Path` is declared in `ufe/path.h`, which is not among the
sources.  A scene item is "identified by a hierarchical path"; the file only observes
a path through `Path::string()`, so a path is kept as its string form. -/
structure Path where
  string : String
deriving DecidableEq

/-- Modelled from the spec: `UsdPrim` (pxr) is the "underlying scene-graph element referenced
by a SceneItem"; it is an opaque reference, here named by the prim's path in the stage. -/
structure UsdPrim where
  primPath : String
deriving DecidableEq

/-- Modelled from the spec: `UsdSceneItem` (declared in `UsdSceneItem.h`) is a scene item with
its `path()` and the `prim()` it refers to.  The upcast to `Ufe::SceneItem::Ptr` keeps
the pointee, so one type serves for both. -/
structure UsdSceneItem where
  path : Path
  prim : UsdPrim
deriving DecidableEq

/-- Modelled from the spec: `UsdGeomTokens` (pxr/usd/usdGeom/tokens.h): the attribute name
`visibility`, its two recognised values `inherited` and `invisible`, and the
`default_` purpose.  A token is an interned string. -/
structure UsdGeomTokensType where
  visibility : String
  inherited : String
  invisible : String
  default_ : String

/-- Modelled from the spec: the token table with the strings the tokens intern. -/
def UsdGeomTokens : UsdGeomTokensType where
  visibility := "visibility"
  inherited := "inherited"
  invisible := "invisible"
  default_ := "default"

/-- Modelled from the spec: a `Ufe::Attribute` as found under a name: either of the
enumerated-string kind, holding its current token, or of some other kind (for which
the dynamic cast to `AttributeEnumString` yields null). -/
inductive Attribute where
  | enumString (value : String)
  | otherKind (typeName : String)
deriving DecidableEq

/-- Modelled from the spec: the scene state the facade reads and writes: for each item path the
attributes interface (`Ufe::Attributes::attributes(item)`, absent for `none`), which
maps an attribute name to the attribute of that name, if any. -/
structure Scene where
  attributes : Path → Option (String → Option Attribute)

/-- Modelled from the spec: a non-null `Ufe::AttributeEnumString::Ptr`: a handle on the
enumerated-string attribute `name` of the item at `item`. -/
structure AttributeEnumString where
  item : Path
  name : String
deriving DecidableEq

/-- Modelled from the spec: `Ufe::Attributes::attributes(item)`: the item's attributes interface,
or null. -/
def Attributes.attributes (s : Scene) (item : UsdSceneItem) : Option (String → Option Attribute) :=
  s.attributes item.path

/-- Modelled from the spec: `std::dynamic_pointer_cast<Ufe::AttributeEnumString>` applied to the
result of `objAttrs->attribute(name)`: "returns nothing if absent or wrong type". -/
def dynamic_pointer_cast (item : UsdSceneItem) (name : String) :
    Option Attribute → Option AttributeEnumString
  | some (Attribute.enumString _) => some ⟨item.path, name⟩
  | some (Attribute.otherKind _) => none
  | none => none

/-- Modelled from the spec: `AttributeEnumString::get()`: "the current token value" of the
attribute behind the handle (the empty string when there is no such token). -/
def AttributeEnumString.get (h : AttributeEnumString) (s : Scene) : String :=
  match s.attributes h.item with
  | some attrs =>
    match attrs h.name with
    | some (Attribute.enumString t) => t
    | _ => ""
  | none => ""

/-- Modelled from the spec: the effect of `AttributeEnumString::set(value)` on the attribute
storage: "a mutation persisted into the external scene-graph's attribute storage
(visible to subsequent reads)".  Only the enumerated-string attribute behind the handle
changes. -/
def Scene.store (s : Scene) (h : AttributeEnumString) (value : String) : Scene where
  attributes := fun p =>
    if p = h.item then
      (s.attributes p).map fun attrs n =>
        if n = h.name then
          match attrs n with
          | some (Attribute.enumString _) => some (Attribute.enumString value)
          | other => other
        else attrs n
    else s.attributes p

/-- The state threaded through the facade's operations: the scene, and the history of
`AttributeEnumString::set` calls made so far (bookkeeping, not part of the scene). -/
structure Session where
  scene : Scene
  setCalls : List (AttributeEnumString × String)

/-- Modelled from the spec: `AttributeEnumString::set(value)` as a call: the write reaches the
scene and the call is recorded. -/
def AttributeEnumString.set (h : AttributeEnumString) (value : String) (w : Session) : Session where
  scene := w.scene.store h value
  setCalls := w.setCalls ++ [(h, value)]

/-- A `GfVec3d`: three doubles, `v[0]`, `v[1]`, `v[2]`.  The scalar type is a parameter: the
file copies doubles and computes nothing with them. -/
structure GfVec3d (D : Type) where
  v0 : D
  v1 : D
  v2 : D

/-- A `GfRange3d` as seen through `GetMin()` and `GetMax()`. -/
structure GfRange3d (D : Type) where
  GetMin : GfVec3d D
  GetMax : GfVec3d D

/-- A `Ufe::Vector3d`, built by `Ufe::Vector3d(x, y, z)`. -/
structure Vector3d (D : Type) where
  x : D
  y : D
  z : D

/-- A `Ufe::BBox3d`, built by `Ufe::BBox3d(min, max)`. -/
structure BBox3d (D : Type) where
  min : Vector3d D
  max : Vector3d D

/-- Modelled from the spec: the collaborators of `boundingBox()`: "time resolution" (`getTime`,
from `mayaUsd/ufe/Utils.h`) and "bounding-box computation"
(`UsdGeomImageable(prim).ComputeUntransformedBound(time, purpose)` followed by
`GfBBox3d::ComputeAlignedRange()`), which may read the scene. -/
structure Engine (D : Type) where
  UsdTimeCode : Type
  GfBBox3d : Type
  getTime : Path → UsdTimeCode
  ComputeUntransformedBound : Scene → UsdPrim → UsdTimeCode → String → GfBBox3d
  ComputeAlignedRange : GfBBox3d → GfRange3d D

/-- The exception the file throws: `std::runtime_error`, observed through `what()`. -/
structure runtime_error where
  what : String
deriving DecidableEq

/-- The characters a `const char*` obtained with `std::string::c_str()` denotes: those
before the first NUL character. -/
def c_str (s : String) : String :=
  String.mk (s.data.takeWhile fun c => c != Char.ofNat 0)

/-- The format string of the error message, up to its single `%s` conversion. -/
def errFormat : String := "Could not get visibility attribute for Object3d: "

/-- The call `TfStringPrintf("Could not get visibility attribute for Object3d: %s", arg)`:
the text of the format with the C string `arg` in place of `%s`. -/
def TfStringPrintf (arg : String) : String :=
  errFormat ++ arg

/-! ## The file-local helpers -/

/-- Lines 30-33: `toVector3d`. -/
def toVector3d {D : Type} (v : GfVec3d D) : Vector3d D :=
  Vector3d.mk v.v0 v.v1 v.v2

/-- Lines 35-50: `getVisibilityAttribute`.  The result is the pointer returned (`none` would
be a null pointer) or the exception thrown.  `found` is the `visAttr` of the early return:
null when `objAttrs` is null or the cast fails, in which case control reaches the throw. -/
def getVisibilityAttribute (item : UsdSceneItem) (s : Scene) :
    Except runtime_error (Option AttributeEnumString) :=
  let found : Option AttributeEnumString :=
    match Attributes.attributes s item with
    | some objAttrs =>
      dynamic_pointer_cast item UsdGeomTokens.visibility (objAttrs UsdGeomTokens.visibility)
    | none => none
  match found with
  | some visAttr => Except.ok (some visAttr)
  | none =>
    let err := TfStringPrintf (c_str item.path.string)
    Except.error (runtime_error.mk (c_str err))

/-! ## The class -/

/-- The data members of `UsdObject3d`. -/
structure UsdObject3d where
  fItem : UsdSceneItem
  fPrim : UsdPrim
deriving DecidableEq

/-- Lines 57-58: the constructor. -/
def UsdObject3d.new (item : UsdSceneItem) : UsdObject3d where
  fItem := item
  fPrim := item.prim

/-- Lines 63-66: `UsdObject3d::create`. -/
def UsdObject3d.create (item : UsdSceneItem) : UsdObject3d :=
  UsdObject3d.new item

/-- Lines 72-75: `UsdObject3d::sceneItem`. -/
def UsdObject3d.sceneItem (self : UsdObject3d) : UsdSceneItem :=
  self.fItem

/-- Lines 77-98: `UsdObject3d::boundingBox`. -/
def UsdObject3d.boundingBox {D : Type} (e : Engine D) (self : UsdObject3d) (w : Session) : BBox3d D :=
  let bbox := e.ComputeUntransformedBound w.scene self.fPrim (e.getTime self.sceneItem.path)
    UsdGeomTokens.default_
  let range := e.ComputeAlignedRange bbox
  let min := range.GetMin
  let max := range.GetMax
  BBox3d.mk (toVector3d min) (toVector3d max)

/-- Lines 100-107: `UsdObject3d::visibility`. -/
def UsdObject3d.visibility (self : UsdObject3d) (w : Session) : Except runtime_error Bool × Session :=
  match getVisibilityAttribute self.sceneItem w.scene with
  | Except.error e => (Except.error e, w)
  | Except.ok (some visAttr) => (Except.ok (visAttr.get w.scene != UsdGeomTokens.invisible), w)
  | Except.ok none => (Except.ok false, w)

/-- Lines 109-115: `UsdObject3d::setVisibility`. -/
def UsdObject3d.setVisibility (self : UsdObject3d) (vis : Bool) (w : Session) :
    Except runtime_error Unit × Session :=
  match getVisibilityAttribute self.sceneItem w.scene with
  | Except.error e => (Except.error e, w)
  | Except.ok (some visAttr) =>
    (Except.ok (),
      visAttr.set (if vis then UsdGeomTokens.inherited else UsdGeomTokens.invisible) w)
  | Except.ok none => (Except.ok (), w)

/-! ## The overrides as member functions

The same four bodies, translated once more as functions on `*this`: each also gives the data
members the body leaves.  A body that assigned to `fItem` or `fPrim` would show here. -/

/-- What a member function leaves: what it returns, and the data members of `*this` after
it. -/
structure Call (ρ : Type) where
  ret : ρ
  facade : UsdObject3d

/-- Lines 72-75: `UsdObject3d::sceneItem` on `*this`: `return fItem;`. -/
def UsdObject3d.sceneItem_call (self : UsdObject3d) : Call UsdSceneItem :=
  Call.mk self.fItem self

/-- Lines 77-98: `UsdObject3d::boundingBox` on `*this`; the inner `sceneItem()` is a call on
`*this` too. -/
def UsdObject3d.boundingBox_call {D : Type} (e : Engine D) (self : UsdObject3d) (w : Session) :
    Call (BBox3d D) :=
  let item := self.sceneItem_call
  let bbox := e.ComputeUntransformedBound w.scene item.facade.fPrim (e.getTime item.ret.path)
    UsdGeomTokens.default_
  let range := e.ComputeAlignedRange bbox
  let min := range.GetMin
  let max := range.GetMax
  Call.mk (BBox3d.mk (toVector3d min) (toVector3d max)) item.facade

/-- Lines 100-107: `UsdObject3d::visibility` on `*this`. -/
def UsdObject3d.visibility_call (self : UsdObject3d) (w : Session) :
    Call (Except runtime_error Bool × Session) :=
  let item := self.sceneItem_call
  match getVisibilityAttribute item.ret w.scene with
  | Except.error e => Call.mk (Except.error e, w) item.facade
  | Except.ok (some visAttr) =>
    Call.mk (Except.ok (visAttr.get w.scene != UsdGeomTokens.invisible), w) item.facade
  | Except.ok none => Call.mk (Except.ok false, w) item.facade

/-- Lines 109-115: `UsdObject3d::setVisibility` on `*this` (the one override that is not
`const`). -/
def UsdObject3d.setVisibility_call (self : UsdObject3d) (vis : Bool) (w : Session) :
    Call (Except runtime_error Unit × Session) :=
  let item := self.sceneItem_call
  match getVisibilityAttribute item.ret w.scene with
  | Except.error e => Call.mk (Except.error e, w) item.facade
  | Except.ok (some visAttr) =>
    Call.mk (Except.ok (),
      visAttr.set (if vis then UsdGeomTokens.inherited else UsdGeomTokens.invisible) w) item.facade
  | Except.ok none => Call.mk (Except.ok (), w) item.facade

/-! ## Sequences of calls on one facade -/

/-- A call of one of the four overrides. -/
inductive Op where
  | sceneItem
  | boundingBox
  | visibility
  | setVisibility (vis : Bool)
deriving DecidableEq

/-- What a call returns. -/
inductive Value (D : Type) where
  | item (i : UsdSceneItem)
  | bbox (b : BBox3d D)
  | bool (b : Bool)
  | void

/-- A facade object together with the session it lives in. -/
structure Object where
  self : UsdObject3d
  world : Session

/-- One call on the object: its outcome and the object afterwards, made of the data members
and the session the member function leaves. -/
def step {D : Type} (e : Engine D) (op : Op) (o : Object) : Except runtime_error (Value D) × Object :=
  match op with
  | Op.sceneItem =>
    let c := o.self.sceneItem_call
    (Except.ok (Value.item c.ret), Object.mk c.facade o.world)
  | Op.boundingBox =>
    let c := o.self.boundingBox_call e o.world
    (Except.ok (Value.bbox c.ret), Object.mk c.facade o.world)
  | Op.visibility =>
    let c := o.self.visibility_call o.world
    (c.ret.1.map Value.bool, Object.mk c.facade c.ret.2)
  | Op.setVisibility vis =>
    let c := o.self.setVisibility_call vis o.world
    (c.ret.1.map fun _ => Value.void, Object.mk c.facade c.ret.2)

/-- A sequence of calls, each started in the state the previous one left (a caller that
catches the exception goes on with the next call). -/
def run {D : Type} (e : Engine D) : List Op → Object → Object
  | [], o => o
  | op :: ops, o => run e ops (step e op o).2

end ufe
end MayaUsd

namespace MayaUsd
namespace ufe

/-! ## Example scenes -/

/-- A cube prim under a proxy shape: the item used in the worked examples. -/
def cubeItem : UsdSceneItem :=
  UsdSceneItem.mk (Path.mk "|world|stage1|stageShape1,/cube") (UsdPrim.mk "/cube")

/-- A scene in which the cube's attribute named `visibility` is `a` and nothing else exists. -/
def cubeScene (a : Attribute) : Scene where
  attributes := fun p =>
    if p = cubeItem.path then
      some fun n => if n = UsdGeomTokens.visibility then some a else none
    else none

/-- A scene in which no item has an attributes interface. -/
def bareScene : Scene where
  attributes := fun _ => none

/-- An engine that reports the unit cube centred at the origin for every prim. -/
def unitCubeEngine : Engine Float where
  UsdTimeCode := Unit
  GfBBox3d := GfRange3d Float
  getTime := fun _ => ()
  ComputeUntransformedBound := fun _ _ _ _ =>
    GfRange3d.mk (GfVec3d.mk (-0.5) (-0.5) (-0.5)) (GfVec3d.mk 0.5 0.5 0.5)
  ComputeAlignedRange := fun b => b

/-! ## Lemmas shared by the results -/

theorem inherited_ne_invisible : UsdGeomTokens.inherited ≠ UsdGeomTokens.invisible := by
  decide

theorem c_str_idem (s : String) : c_str (c_str s) = c_str s := by
  simp [c_str, List.takeWhile_idem]

theorem errFormat_no_nul : ∀ c ∈ errFormat.data, (c != Char.ofNat 0) = true := by
  decide

theorem c_str_err (s : String) : c_str (TfStringPrintf (c_str s)) = errFormat ++ c_str s := by
  have h : (TfStringPrintf (c_str s)).data = errFormat.data ++ (c_str s).data := by
    simp [TfStringPrintf]
  unfold c_str at *
  rw [h, List.takeWhile_append_of_pos errFormat_no_nul]
  simp [List.takeWhile_idem, String.ext_iff]

end ufe
end MayaUsd

namespace MayaUsd
namespace ufe

/-- When the item has an enumerated-string attribute named `visibility`, the lookup returns
the handle on it. -/
theorem getVisibilityAttribute_found (item : UsdSceneItem) (s : Scene)
    (attrs : String → Option Attribute) (t : String)
    (hA : s.attributes item.path = some attrs)
    (hV : attrs UsdGeomTokens.visibility = some (Attribute.enumString t)) :
    getVisibilityAttribute item s
      = Except.ok (some (AttributeEnumString.mk item.path UsdGeomTokens.visibility)) := by
  simp [getVisibilityAttribute, Attributes.attributes, hA, hV, dynamic_pointer_cast]

/-- When the lookup returns a pointer, it is the handle on an enumerated-string attribute
named `visibility` that the item has. -/
theorem getVisibilityAttribute_ok (item : UsdSceneItem) (s : Scene)
    (r : Option AttributeEnumString) (h : getVisibilityAttribute item s = Except.ok r) :
    r = some (AttributeEnumString.mk item.path UsdGeomTokens.visibility) ∧
      ∃ attrs t, s.attributes item.path = some attrs ∧
        attrs UsdGeomTokens.visibility = some (Attribute.enumString t) := by
  unfold getVisibilityAttribute Attributes.attributes at h
  cases hA : s.attributes item.path with
  | none => simp [hA] at h
  | some attrs =>
    cases hV : attrs UsdGeomTokens.visibility with
    | none => simp [hA, hV, dynamic_pointer_cast] at h
    | some a =>
      cases a with
      | otherKind k => simp [hA, hV, dynamic_pointer_cast] at h
      | enumString t =>
        simp [hA, hV, dynamic_pointer_cast] at h
        exact ⟨h.symm, attrs, t, rfl, hV⟩

/-- When the item has no enumerated-string attribute named `visibility`, the lookup throws
the error whose message is built from the item's path. -/
theorem getVisibilityAttribute_missing (item : UsdSceneItem) (s : Scene)
    (h : s.attributes item.path = none ∨
      ∃ attrs, s.attributes item.path = some attrs ∧
        (attrs UsdGeomTokens.visibility = none ∨
          ∃ k, attrs UsdGeomTokens.visibility = some (Attribute.otherKind k))) :
    getVisibilityAttribute item s
      = Except.error (runtime_error.mk (c_str (TfStringPrintf (c_str item.path.string)))) := by
  unfold getVisibilityAttribute Attributes.attributes
  rcases h with hA | ⟨attrs, hA, hV | ⟨k, hV⟩⟩
  · simp [hA]
  · simp [hA, hV, dynamic_pointer_cast]
  · simp [hA, hV, dynamic_pointer_cast]

/-- Reading through the handle right after a write through it. -/
theorem get_store (s : Scene) (p : Path) (n : String) (attrs : String → Option Attribute)
    (t value : String) (hA : s.attributes p = some attrs)
    (hV : attrs n = some (Attribute.enumString t)) :
    (AttributeEnumString.mk p n).get (s.store (AttributeEnumString.mk p n) value) = value := by
  simp [AttributeEnumString.get, Scene.store, hA, hV]

/-- The attribute table of the written item after a write. -/
theorem store_attributes (s : Scene) (p : Path) (n : String) (attrs : String → Option Attribute)
    (t value : String) (hA : s.attributes p = some attrs)
    (hV : attrs n = some (Attribute.enumString t)) :
    ∃ attrs2, (s.store (AttributeEnumString.mk p n) value).attributes p = some attrs2 ∧
      attrs2 n = some (Attribute.enumString value) := by
  refine ⟨fun m => if m = n then
      match attrs m with
      | some (Attribute.enumString _) => some (Attribute.enumString value)
      | other => other
    else attrs m, ?_, ?_⟩
  · simp [Scene.store, hA]
  · simp [hV]

/-- Writing the same value twice through a handle is the same as writing it once. -/
theorem store_store (s : Scene) (h : AttributeEnumString) (value : String) :
    (s.store h value).store h value = s.store h value := by
  unfold Scene.store
  congr 1
  funext p
  by_cases hp : p = h.item
  · simp only [hp, if_true]
    cases s.attributes h.item with
    | none => rfl
    | some attrs =>
      simp only [Option.map_some']
      congr 1
      funext n
      by_cases hn : n = h.name
      · simp only [hn, if_true]
        cases attrs h.name with
        | none => rfl
        | some a => cases a <;> rfl
      · simp only [hn, if_false]
  · simp only [hp, if_false]

/-- The body of `sceneItem` leaves the data members as they were. -/
theorem sceneItem_call_facade (self : UsdObject3d) : self.sceneItem_call.facade = self := by
  unfold UsdObject3d.sceneItem_call
  rfl

/-- The body of `boundingBox` leaves the data members as they were. -/
theorem boundingBox_call_facade {D : Type} (e : Engine D) (self : UsdObject3d) (w : Session) :
    (self.boundingBox_call e w).facade = self := by
  unfold UsdObject3d.boundingBox_call
  exact sceneItem_call_facade self

/-- The body of `visibility` leaves the data members as they were, on each of its three
paths. -/
theorem visibility_call_facade (self : UsdObject3d) (w : Session) :
    (self.visibility_call w).facade = self := by
  simp only [UsdObject3d.visibility_call]
  cases getVisibilityAttribute self.sceneItem_call.ret w.scene with
  | error err => exact sceneItem_call_facade self
  | ok r => cases r <;> exact sceneItem_call_facade self

/-- The body of `setVisibility` leaves the data members as they were, on each of its three
paths. -/
theorem setVisibility_call_facade (self : UsdObject3d) (vis : Bool) (w : Session) :
    (self.setVisibility_call vis w).facade = self := by
  simp only [UsdObject3d.setVisibility_call]
  cases getVisibilityAttribute self.sceneItem_call.ret w.scene with
  | error err => exact sceneItem_call_facade self
  | ok r => cases r <;> exact sceneItem_call_facade self

/-- The member-function form of `visibility` returns what `visibility` returns. -/
theorem visibility_call_ret (self : UsdObject3d) (w : Session) :
    (self.visibility_call w).ret = self.visibility w := by
  simp only [UsdObject3d.visibility_call, UsdObject3d.visibility, UsdObject3d.sceneItem_call,
    UsdObject3d.sceneItem]
  cases getVisibilityAttribute self.fItem w.scene with
  | error err => rfl
  | ok r => cases r <;> rfl

/-- The member-function form of `setVisibility` returns what `setVisibility` returns. -/
theorem setVisibility_call_ret (self : UsdObject3d) (vis : Bool) (w : Session) :
    (self.setVisibility_call vis w).ret = self.setVisibility vis w := by
  simp only [UsdObject3d.setVisibility_call, UsdObject3d.setVisibility,
    UsdObject3d.sceneItem_call, UsdObject3d.sceneItem]
  cases getVisibilityAttribute self.fItem w.scene with
  | error err => rfl
  | ok r => cases r <;> rfl

/-- No call changes the facade's data members. -/
theorem step_self {D : Type} (e : Engine D) (op : Op) (o : Object) :
    (step e op o).2.self = o.self := by
  cases op with
  | sceneItem => exact sceneItem_call_facade o.self
  | boundingBox => exact boundingBox_call_facade e o.self o.world
  | visibility => exact visibility_call_facade o.self o.world
  | setVisibility vis => exact setVisibility_call_facade o.self vis o.world

/-- No sequence of calls changes the facade's data members. -/
theorem run_self {D : Type} (e : Engine D) (ops : List Op) (o : Object) :
    (run e ops o).self = o.self := by
  induction ops generalizing o with
  | nil => rfl
  | cons op ops ih => rw [run, ih, step_self]

end ufe
end MayaUsd

namespace MayaUsd
namespace ufe

/-! ## Results -/

/-- C1: when the item has an enumerated-string attribute named `visibility` holding the token
`t`, `visibility()` returns normally, without changing the session, and its result is true
exactly when `t` is not the `invisible` token: true for `inherited`, false for `invisible`. -/
theorem visibility_true_iff_not_invisible (self : UsdObject3d) (w : Session)
    (attrs : String → Option Attribute) (t : String)
    (hA : w.scene.attributes self.fItem.path = some attrs)
    (hV : attrs UsdGeomTokens.visibility = some (Attribute.enumString t)) :
    ∃ b : Bool, self.visibility w = (Except.ok b, w) ∧
      (b = true ↔ t ≠ UsdGeomTokens.invisible) ∧
      (t = UsdGeomTokens.inherited → b = true) ∧
      (t = UsdGeomTokens.invisible → b = false) := by
  refine ⟨t != UsdGeomTokens.invisible, ?_, ?_, ?_, ?_⟩
  · have hg : (AttributeEnumString.mk self.fItem.path UsdGeomTokens.visibility).get w.scene = t := by
      simp [AttributeEnumString.get, hA, hV]
    simp only [UsdObject3d.visibility, UsdObject3d.sceneItem,
      getVisibilityAttribute_found self.fItem w.scene attrs t hA hV, hg]
  · simp
  · intro h
    simpa [h] using inherited_ne_invisible
  · intro h
    simp [h]

/-- C1, at the cube with `visibility = inherited`: the result is `true`. -/
theorem visibility_true_iff_not_invisible_witness :
    (UsdObject3d.create cubeItem).visibility
        (Session.mk (cubeScene (Attribute.enumString "inherited")) [])
      = (Except.ok true, Session.mk (cubeScene (Attribute.enumString "inherited")) []) := by
  obtain ⟨b, hb, _, hi, _⟩ :=
    visibility_true_iff_not_invisible (UsdObject3d.create cubeItem)
      (Session.mk (cubeScene (Attribute.enumString "inherited")) [])
      (fun n => if n = UsdGeomTokens.visibility then some (Attribute.enumString "inherited") else none)
      "inherited" (by simp [cubeScene, UsdObject3d.create, UsdObject3d.new]) (by simp)
  rw [hb, hi rfl]

/-- C2: round trip: when the item has an enumerated-string attribute named `visibility`,
whatever token it holds, `setVisibility(v)` followed by `visibility()` returns `v`. -/
theorem setVisibility_then_visibility (self : UsdObject3d) (w : Session) (v : Bool)
    (attrs : String → Option Attribute) (t : String)
    (hA : w.scene.attributes self.fItem.path = some attrs)
    (hV : attrs UsdGeomTokens.visibility = some (Attribute.enumString t)) :
    (self.setVisibility v w).1 = Except.ok () ∧
      (self.visibility (self.setVisibility v w).2).1 = Except.ok v := by
  have hset : self.setVisibility v w = (Except.ok (),
      (AttributeEnumString.mk self.fItem.path UsdGeomTokens.visibility).set
        (if v then UsdGeomTokens.inherited else UsdGeomTokens.invisible) w) := by
    simp only [UsdObject3d.setVisibility, UsdObject3d.sceneItem,
      getVisibilityAttribute_found self.fItem w.scene attrs t hA hV]
  obtain ⟨attrs2, hA2, hV2⟩ := store_attributes w.scene self.fItem.path UsdGeomTokens.visibility
    attrs t (if v then UsdGeomTokens.inherited else UsdGeomTokens.invisible) hA hV
  refine ⟨by rw [hset], ?_⟩
  rw [hset]
  have hg := get_store w.scene self.fItem.path UsdGeomTokens.visibility attrs t
    (if v then UsdGeomTokens.inherited else UsdGeomTokens.invisible) hA hV
  simp only [UsdObject3d.visibility, UsdObject3d.sceneItem, AttributeEnumString.set,
    getVisibilityAttribute_found self.fItem _ attrs2 _ hA2 hV2, hg]
  cases v
  · simp
  · simpa using inherited_ne_invisible

/-- C2, at the cube holding `invisible`: after `setVisibility(true)`, `visibility()` is `true`. -/
theorem setVisibility_then_visibility_witness :
    ((UsdObject3d.create cubeItem).visibility
        ((UsdObject3d.create cubeItem).setVisibility true
          (Session.mk (cubeScene (Attribute.enumString "invisible")) [])).2).1
      = Except.ok true :=
  (setVisibility_then_visibility (UsdObject3d.create cubeItem)
      (Session.mk (cubeScene (Attribute.enumString "invisible")) []) true
      (fun n => if n = UsdGeomTokens.visibility then some (Attribute.enumString "invisible") else none)
      "invisible" (by simp [cubeScene, UsdObject3d.create, UsdObject3d.new]) (by simp)).2

/-- C3: when the item has no attributes interface, or no attribute named `visibility`, or one
that is not of the enumerated-string kind, `visibility()` and `setVisibility(v)` both throw
the missing-visibility-attribute error and leave the session as it was: no boolean is
returned and no write is made. -/
theorem missing_visibility_attribute_throws (self : UsdObject3d) (w : Session)
    (h : w.scene.attributes self.fItem.path = none ∨
      ∃ attrs, w.scene.attributes self.fItem.path = some attrs ∧
        (attrs UsdGeomTokens.visibility = none ∨
          ∃ k, attrs UsdGeomTokens.visibility = some (Attribute.otherKind k))) :
    self.visibility w
        = (Except.error (runtime_error.mk (c_str (TfStringPrintf (c_str self.fItem.path.string)))), w) ∧
      ∀ v : Bool, self.setVisibility v w
        = (Except.error (runtime_error.mk (c_str (TfStringPrintf (c_str self.fItem.path.string)))), w) := by
  have hm := getVisibilityAttribute_missing self.fItem w.scene h
  constructor
  · simp only [UsdObject3d.visibility, UsdObject3d.sceneItem, hm]
  · intro v
    simp only [UsdObject3d.setVisibility, UsdObject3d.sceneItem, hm]

/-- C3, at the cube whose `visibility` is a boolean attribute: both calls throw. -/
theorem missing_visibility_attribute_throws_witness :
    (UsdObject3d.create cubeItem).visibility (Session.mk (cubeScene (Attribute.otherKind "Bool")) [])
        = (Except.error (runtime_error.mk
            "Could not get visibility attribute for Object3d: |world|stage1|stageShape1,/cube"),
          Session.mk (cubeScene (Attribute.otherKind "Bool")) []) ∧
      (UsdObject3d.create cubeItem).setVisibility false
          (Session.mk (cubeScene (Attribute.otherKind "Bool")) [])
        = (Except.error (runtime_error.mk
            "Could not get visibility attribute for Object3d: |world|stage1|stageShape1,/cube"),
          Session.mk (cubeScene (Attribute.otherKind "Bool")) []) := by
  have hmsg : c_str (TfStringPrintf (c_str (UsdObject3d.create cubeItem).fItem.path.string))
      = "Could not get visibility attribute for Object3d: |world|stage1|stageShape1,/cube" := by
    decide
  have h := missing_visibility_attribute_throws (UsdObject3d.create cubeItem)
    (Session.mk (cubeScene (Attribute.otherKind "Bool")) [])
    (Or.inr ⟨fun n => if n = UsdGeomTokens.visibility then some (Attribute.otherKind "Bool") else none,
      by simp [cubeScene, UsdObject3d.create, UsdObject3d.new], Or.inr ⟨"Bool", by simp⟩⟩)
  rw [hmsg] at h
  exact ⟨h.1, h.2 false⟩

end ufe
end MayaUsd

namespace MayaUsd
namespace ufe

/-- C4: when the item has an enumerated-string attribute named `visibility`, whatever token it
holds, `setVisibility(true)` returns normally and leaves it holding `inherited`, and
`setVisibility(false)` returns normally and leaves it holding `invisible`. -/
theorem setVisibility_writes_token (self : UsdObject3d) (w : Session)
    (attrs : String → Option Attribute) (t : String)
    (hA : w.scene.attributes self.fItem.path = some attrs)
    (hV : attrs UsdGeomTokens.visibility = some (Attribute.enumString t)) :
    ((self.setVisibility true w).1 = Except.ok () ∧
      ∃ attrs2, (self.setVisibility true w).2.scene.attributes self.fItem.path = some attrs2 ∧
        attrs2 UsdGeomTokens.visibility = some (Attribute.enumString UsdGeomTokens.inherited)) ∧
    ((self.setVisibility false w).1 = Except.ok () ∧
      ∃ attrs2, (self.setVisibility false w).2.scene.attributes self.fItem.path = some attrs2 ∧
        attrs2 UsdGeomTokens.visibility = some (Attribute.enumString UsdGeomTokens.invisible)) := by
  have hset : ∀ v : Bool, self.setVisibility v w = (Except.ok (),
      (AttributeEnumString.mk self.fItem.path UsdGeomTokens.visibility).set
        (if v then UsdGeomTokens.inherited else UsdGeomTokens.invisible) w) := by
    intro v
    simp only [UsdObject3d.setVisibility, UsdObject3d.sceneItem,
      getVisibilityAttribute_found self.fItem w.scene attrs t hA hV]
  constructor
  · rw [hset true]
    exact ⟨rfl, store_attributes w.scene self.fItem.path UsdGeomTokens.visibility attrs t
      UsdGeomTokens.inherited hA hV⟩
  · rw [hset false]
    exact ⟨rfl, store_attributes w.scene self.fItem.path UsdGeomTokens.visibility attrs t
      UsdGeomTokens.invisible hA hV⟩

/-- C4, at the cube holding `inherited`: `setVisibility(false)` leaves `invisible` there. -/
theorem setVisibility_writes_token_witness :
    ∃ attrs2, ((UsdObject3d.create cubeItem).setVisibility false
        (Session.mk (cubeScene (Attribute.enumString "inherited")) [])).2.scene.attributes
          cubeItem.path = some attrs2 ∧
      attrs2 "visibility" = some (Attribute.enumString "invisible") :=
  (setVisibility_writes_token (UsdObject3d.create cubeItem)
      (Session.mk (cubeScene (Attribute.enumString "inherited")) [])
      (fun n => if n = UsdGeomTokens.visibility then some (Attribute.enumString "inherited") else none)
      "inherited" (by simp [cubeScene, UsdObject3d.create, UsdObject3d.new]) (by simp)).2.2

/-- C5: `setVisibility` is idempotent: from every session, for either value, a second
`setVisibility(v)` right after the first leaves the scene the first one left and has the
same outcome (both return, or both throw the same error). -/
theorem setVisibility_idempotent (self : UsdObject3d) (v : Bool) (w : Session) :
    (self.setVisibility v (self.setVisibility v w).2).2.scene = (self.setVisibility v w).2.scene ∧
      (self.setVisibility v (self.setVisibility v w).2).1 = (self.setVisibility v w).1 := by
  cases hl : getVisibilityAttribute self.fItem w.scene with
  | error err =>
    have hset : self.setVisibility v w = (Except.error err, w) := by
      simp only [UsdObject3d.setVisibility, UsdObject3d.sceneItem, hl]
    rw [hset, hset]
    exact ⟨rfl, rfl⟩
  | ok r =>
    obtain ⟨hr, attrs, t, hA, hV⟩ := getVisibilityAttribute_ok self.fItem w.scene r hl
    have hset : self.setVisibility v w = (Except.ok (),
        (AttributeEnumString.mk self.fItem.path UsdGeomTokens.visibility).set
          (if v then UsdGeomTokens.inherited else UsdGeomTokens.invisible) w) := by
      simp only [UsdObject3d.setVisibility, UsdObject3d.sceneItem,
        getVisibilityAttribute_found self.fItem w.scene attrs t hA hV]
    obtain ⟨attrs2, hA2, hV2⟩ := store_attributes w.scene self.fItem.path
      UsdGeomTokens.visibility attrs t
      (if v then UsdGeomTokens.inherited else UsdGeomTokens.invisible) hA hV
    rw [hset]
    simp only [UsdObject3d.setVisibility, UsdObject3d.sceneItem, AttributeEnumString.set,
      getVisibilityAttribute_found self.fItem _ attrs2 _ hA2 hV2, store_store]
    exact ⟨trivial, trivial⟩

/-- C6: the facade built from item `i` by `create` (or by the constructor) returns `i` from
`sceneItem()`: right after construction and after any sequence of calls of the four
operations; the call always returns normally. -/
theorem sceneItem_returns_constructed_item {D : Type} (e : Engine D) (i : UsdSceneItem)
    (w : Session) (ops : List Op) :
    (UsdObject3d.create i).sceneItem = i ∧ (UsdObject3d.new i).sceneItem = i ∧
      (run e ops (Object.mk (UsdObject3d.create i) w)).self.sceneItem = i ∧
      (step e Op.sceneItem (run e ops (Object.mk (UsdObject3d.create i) w))).1
        = Except.ok (Value.item i) := by
  refine ⟨rfl, rfl, ?_, ?_⟩
  · rw [run_self]
    rfl
  · simp only [step, run_self]
    rfl

/-- C7: `boundingBox()` of the facade built from an item is the box whose corners copy, component
by component and in order, the min and the max of the aligned range of the untransformed
bound the engine computes for the item's prim, at the time resolved from the item's path,
with the default purpose. -/
theorem boundingBox_copies_aligned_range {D : Type} (e : Engine D) (item : UsdSceneItem)
    (w : Session) (lo hi : GfVec3d D)
    (hmin : (e.ComputeAlignedRange (e.ComputeUntransformedBound w.scene item.prim
      (e.getTime item.path) UsdGeomTokens.default_)).GetMin = lo)
    (hmax : (e.ComputeAlignedRange (e.ComputeUntransformedBound w.scene item.prim
      (e.getTime item.path) UsdGeomTokens.default_)).GetMax = hi) :
    (UsdObject3d.create item).boundingBox e w
      = BBox3d.mk (Vector3d.mk lo.v0 lo.v1 lo.v2) (Vector3d.mk hi.v0 hi.v1 hi.v2) := by
  subst hmin hmax
  rfl

/-- C7, for the unit cube centred at the origin: the result is that min and max, not swapped. -/
theorem boundingBox_copies_aligned_range_witness :
    (UsdObject3d.create cubeItem).boundingBox unitCubeEngine (Session.mk bareScene [])
      = BBox3d.mk (Vector3d.mk (-0.5) (-0.5) (-0.5)) (Vector3d.mk 0.5 0.5 0.5) :=
  boundingBox_copies_aligned_range unitCubeEngine cubeItem (Session.mk bareScene [])
    (GfVec3d.mk (-0.5) (-0.5) (-0.5)) (GfVec3d.mk 0.5 0.5 0.5) rfl rfl

end ufe
end MayaUsd

namespace MayaUsd
namespace ufe

/-- C8: whenever the lookup throws for an item with path `p` whose string form is a C string
(no NUL character in it; line 48 passes it on with `c_str()`), the message of the error is
exactly the text "Could not get visibility attribute for Object3d: " followed by the string
form of `p`. -/
theorem lookup_error_message (item : UsdSceneItem) (s : Scene) (e : runtime_error)
    (hp : ∀ c ∈ item.path.string.data, c ≠ Char.ofNat 0)
    (h : getVisibilityAttribute item s = Except.error e) :
    e.what = "Could not get visibility attribute for Object3d: " ++ item.path.string := by
  have he : e = runtime_error.mk (c_str (TfStringPrintf (c_str item.path.string))) := by
    simp only [getVisibilityAttribute] at h
    split at h
    · simp at h
    · simpa using h.symm
  have hc : c_str item.path.string = item.path.string := by
    unfold c_str
    rw [List.takeWhile_eq_self_iff.mpr (by simpa using hp)]
  rw [he, c_str_err, hc]
  rfl

/-- C8, at the cube in a scene without attributes: the lookup throws and the message ends with
the cube's path. -/
theorem lookup_error_message_witness :
    (∀ c ∈ cubeItem.path.string.data, c ≠ Char.ofNat 0) ∧
      getVisibilityAttribute cubeItem bareScene
        = Except.error (runtime_error.mk
            "Could not get visibility attribute for Object3d: |world|stage1|stageShape1,/cube") ∧
      (runtime_error.mk
          "Could not get visibility attribute for Object3d: |world|stage1|stageShape1,/cube").what
        = "Could not get visibility attribute for Object3d: " ++ cubeItem.path.string :=
  have h : getVisibilityAttribute cubeItem bareScene
      = Except.error (runtime_error.mk
          "Could not get visibility attribute for Object3d: |world|stage1|stageShape1,/cube") := by
    have hm : c_str (TfStringPrintf (c_str cubeItem.path.string))
        = "Could not get visibility attribute for Object3d: |world|stage1|stageShape1,/cube" := by
      decide
    rw [← hm]
    rfl
  ⟨by decide, h, lookup_error_message cubeItem bareScene _ (by decide) h⟩

/-- C9: right after construction from item `i` the facade's `fPrim` is `i`'s prim and its
`fItem` is `i`.  The body of each of the four operations, on every path through it (returning
or throwing), leaves the data members `fItem` and `fPrim` as they were, and returns what the
operation returns.  So each call, and any sequence of calls, leaves both members unchanged:
`fPrim` is still the prim captured at construction and `fItem` is still `i`. -/
theorem facade_fields_unchanged {D : Type} (e : Engine D) (i : UsdSceneItem) (w : Session) :
    ((UsdObject3d.new i).fPrim = i.prim ∧ (UsdObject3d.new i).fItem = i) ∧
      (∀ (self : UsdObject3d) (s : Session) (v : Bool),
        self.sceneItem_call.facade = self ∧
        (self.boundingBox_call e s).facade = self ∧
        (self.visibility_call s).facade = self ∧
        (self.setVisibility_call v s).facade = self) ∧
      (∀ (self : UsdObject3d) (s : Session) (v : Bool),
        self.sceneItem_call.ret = self.sceneItem ∧
        (self.boundingBox_call e s).ret = self.boundingBox e s ∧
        (self.visibility_call s).ret = self.visibility s ∧
        (self.setVisibility_call v s).ret = self.setVisibility v s) ∧
      (∀ (op : Op) (o : Object),
        (step e op o).2.self.fItem = o.self.fItem ∧ (step e op o).2.self.fPrim = o.self.fPrim) ∧
      ∀ ops : List Op,
        (run e ops (Object.mk (UsdObject3d.new i) w)).self.fPrim = i.prim ∧
          (run e ops (Object.mk (UsdObject3d.new i) w)).self.fItem = i := by
  refine ⟨⟨rfl, rfl⟩, fun self s v => ?_, fun self s v => ?_, fun op o => ?_, fun ops => ?_⟩
  · exact ⟨sceneItem_call_facade self, boundingBox_call_facade e self s,
      visibility_call_facade self s, setVisibility_call_facade self v s⟩
  · exact ⟨rfl, rfl, visibility_call_ret self s, setVisibility_call_ret self v s⟩
  · rw [step_self]
    exact ⟨rfl, rfl⟩
  · rw [run_self]
    exact ⟨rfl, rfl⟩

/-- C10: for every item the lookup either throws or returns a non-null handle.  So
`visibility()` returns false only when the item's `visibility` attribute holds `invisible`,
and a `setVisibility(v)` that returns normally has made exactly one write: the session it
leaves is the one a single `set` of the token for `v`, through the handle on the item's
`visibility` attribute, makes of the session it started in; the scene is written once and
the history has gained that one call. -/
theorem lookup_never_null (item : UsdSceneItem) (s : Scene) (self : UsdObject3d) (w : Session)
    (v : Bool) :
    ((∃ e, getVisibilityAttribute item s = Except.error e) ∨
        ∃ visAttr, getVisibilityAttribute item s = Except.ok (some visAttr)) ∧
      ((self.visibility w).1 = Except.ok false →
        ∃ attrs, w.scene.attributes self.fItem.path = some attrs ∧
          attrs UsdGeomTokens.visibility = some (Attribute.enumString UsdGeomTokens.invisible)) ∧
      ((self.setVisibility v w).1 = Except.ok () →
        (self.setVisibility v w).2
            = (AttributeEnumString.mk self.fItem.path UsdGeomTokens.visibility).set
                (if v then UsdGeomTokens.inherited else UsdGeomTokens.invisible) w ∧
          (self.setVisibility v w).2.scene
            = w.scene.store (AttributeEnumString.mk self.fItem.path UsdGeomTokens.visibility)
                (if v then UsdGeomTokens.inherited else UsdGeomTokens.invisible) ∧
          (self.setVisibility v w).2.setCalls = w.setCalls ++
            [(AttributeEnumString.mk self.fItem.path UsdGeomTokens.visibility,
              if v then UsdGeomTokens.inherited else UsdGeomTokens.invisible)]) := by
  refine ⟨?_, ?_, ?_⟩
  · cases hl : getVisibilityAttribute item s with
    | error err => exact Or.inl ⟨err, rfl⟩
    | ok r =>
      obtain ⟨hr, _⟩ := getVisibilityAttribute_ok item s r hl
      exact Or.inr ⟨_, by rw [hr]⟩
  · intro h
    cases hl : getVisibilityAttribute self.fItem w.scene with
    | error err =>
      simp [UsdObject3d.visibility, UsdObject3d.sceneItem, hl] at h
    | ok r =>
      obtain ⟨hr, attrs, t, hA, hV⟩ := getVisibilityAttribute_ok self.fItem w.scene r hl
      subst hr
      simp [UsdObject3d.visibility, UsdObject3d.sceneItem, hl, AttributeEnumString.get, hA, hV] at h
      exact ⟨attrs, hA, by rw [hV, h]⟩
  · intro h
    cases hl : getVisibilityAttribute self.fItem w.scene with
    | error err =>
      simp [UsdObject3d.setVisibility, UsdObject3d.sceneItem, hl] at h
    | ok r =>
      obtain ⟨hr, _⟩ := getVisibilityAttribute_ok self.fItem w.scene r hl
      subst hr
      have hset : self.setVisibility v w = (Except.ok (),
          (AttributeEnumString.mk self.fItem.path UsdGeomTokens.visibility).set
            (if v then UsdGeomTokens.inherited else UsdGeomTokens.invisible) w) := by
        simp only [UsdObject3d.setVisibility, UsdObject3d.sceneItem, hl]
      rw [hset]
      exact ⟨rfl, rfl, rfl⟩

/-- C10, at the cube holding `invisible`: `visibility()` returns false and the attribute does
hold `invisible`; `setVisibility(true)` returns normally, the scene it leaves is the one with
`inherited` written to the cube's `visibility`, and the history has gained that one call. -/
theorem lookup_never_null_witness :
    (∃ attrs, (cubeScene (Attribute.enumString "invisible")).attributes cubeItem.path = some attrs ∧
        attrs "visibility" = some (Attribute.enumString "invisible")) ∧
      ((UsdObject3d.create cubeItem).setVisibility true
          (Session.mk (cubeScene (Attribute.enumString "invisible")) [])).2.scene
        = (cubeScene (Attribute.enumString "invisible")).store
            (AttributeEnumString.mk cubeItem.path "visibility") "inherited" ∧
      ((UsdObject3d.create cubeItem).setVisibility true
          (Session.mk (cubeScene (Attribute.enumString "invisible")) [])).2.setCalls
        = [(AttributeEnumString.mk cubeItem.path "visibility", "inherited")] :=
  have h := lookup_never_null cubeItem (cubeScene (Attribute.enumString "invisible"))
    (UsdObject3d.create cubeItem) (Session.mk (cubeScene (Attribute.enumString "invisible")) []) true
  ⟨h.2.1 rfl, (h.2.2 rfl).2.1, (h.2.2 rfl).2.2⟩

end ufe
end MayaUsd
